import Mathlib

/-!
Verification of the prediction-tracker service (goryszewskig/predictor).

The repository carries two generations of the request pipeline:
* `Part001`/`Part000` below embed the security module and API handlers of the
  unnamed source pair (rate limiter with block state, `validateInput`,
  CAPTCHA and honeypot checks done inside the POST handlers);
* `SrcSecurity`/`SrcIndex` embed `src/security.ts` and `src/index.tsx`
  (middleware generation; its verify handler performs the existence and
  duplicate checks).

Machine numbers are modelled as `Int` (JS numbers hold exact integers in the
ranges exercised here); strings are Lean `String`s, with the character-level
operations re-implemented over `List Char` so that everything computes.
External JS library behaviour (`new Date`, `new URL`, the clock) is passed in
as an explicit environment.
-/

namespace Predictor

namespace Part001

/-- Entry of the in-memory rate-limit store (`interface RateLimitEntry`). -/
structure RateLimitEntry where
  count : Int
  windowStart : Int
  blocked : Bool := false
  blockUntil : Option Int := none
deriving DecidableEq

/-- A per-endpoint rate-limit configuration (`{ max, window }`). -/
structure RateConfig where
  max : Int
  window : Int
deriving DecidableEq

/-- `SECURITY_CONFIG.RATE_LIMIT.WINDOW_MS`. -/
def WINDOW_MS : Int := 60 * 1000

/-- `SECURITY_CONFIG.RATE_LIMIT.MAX_REQUESTS`. -/
def MAX_REQUESTS : Int := 30

/-- `SECURITY_CONFIG.BLOCKING.SUSPICIOUS_THRESHOLD`. -/
def SUSPICIOUS_THRESHOLD : Int := 100

/-- `SECURITY_CONFIG.BLOCKING.BLOCK_DURATION` (15 minutes in ms). -/
def BLOCK_DURATION : Int := 15 * 60 * 1000

/-- `SECURITY_CONFIG.RATE_LIMIT.STRICT_ENDPOINTS` lookup. -/
def strictEndpointConfig (endpoint : String) : Option RateConfig :=
  if endpoint = "/api/predictions" then some { max := 5, window := 60 * 1000 }
  else if endpoint = "/api/predictions/*/verify" then some { max := 10, window := 60 * 1000 }
  else none

/-- `endpoint && STRICT_ENDPOINTS[endpoint] ? strict : { max: MAX_REQUESTS, window: WINDOW_MS }`;
the empty string is falsy in JS, so it also selects the default. -/
def configFor (endpoint : Option String) : RateConfig :=
  match endpoint with
  | some e =>
      if e = "" then { max := MAX_REQUESTS, window := WINDOW_MS }
      else (strictEndpointConfig e).getD { max := MAX_REQUESTS, window := WINDOW_MS }
  | none => { max := MAX_REQUESTS, window := WINDOW_MS }

/-- `Math.ceil(a / b)` for an integer `a` and positive integer `b`
(Lean `Int` division is Euclidean, i.e. floor division for a positive divisor). -/
def jsCeilDiv (a b : Int) : Int := (a + b - 1) / b

/-- `entry?.blocked && entry.blockUntil && now < entry.blockUntil`
(the number `0` is falsy in JS, hence the `bu ≠ 0` guard). -/
def isActiveBlock (now : Int) (e : RateLimitEntry) : Bool :=
  e.blocked &&
    (match e.blockUntil with
     | some bu => decide (bu ≠ 0) && decide (now < bu)
     | none => false)

/-- The initialise-or-update step of `rateLimiter`: a missing entry or an
expired window (`now - entry.windowStart > config.window`) yields a fresh
`{ count: 1, windowStart: now, blocked: false }`; otherwise `entry.count++`. -/
def bumpEntry (config : RateConfig) (now : Int) (entry : Option RateLimitEntry) :
    RateLimitEntry :=
  match entry with
  | none => { count := 1, windowStart := now, blocked := false }
  | some e =>
      if now - e.windowStart > config.window then
        { count := 1, windowStart := now, blocked := false }
      else
        { e with count := e.count + 1 }

/-- Result of one run of the `rateLimiter` middleware on a request. -/
inductive RateOutcome where
  | blockedReject (retryAfter : Int)
  | suspiciousReject (retryAfter : Int)
  | limitReject (limit windowMs retryAfter : Int)
  | allow (remaining : Int)
deriving DecidableEq

/-- HTTP status carried by the outcome: `some 429` for the three rejection
responses, `none` when the request is handed to `next()`. -/
def RateOutcome.status : RateOutcome → Option Nat
  | .blockedReject _ => some 429
  | .suspiciousReject _ => some 429
  | .limitReject _ _ _ => some 429
  | .allow _ => none

/-- The part of `rateLimiter` after `rateLimitStore.set(key, entry)`:
the limit check, the suspicious-threshold block, and the rejection payloads.
`BLOCK_DURATION / 1000` and the `Math.ceil` remaining-time hint are the
`retryAfter` values of the two 429 bodies. -/
def afterBump (config : RateConfig) (now : Int) (e : RateLimitEntry) :
    RateOutcome × Option RateLimitEntry :=
  if e.count > config.max then
    if e.count > SUSPICIOUS_THRESHOLD then
      (.suspiciousReject (BLOCK_DURATION / 1000),
       some { e with blocked := true, blockUntil := some (now + BLOCK_DURATION) })
    else
      (.limitReject config.max config.window
         (jsCeilDiv (e.windowStart + config.window - now) 1000),
       some e)
  else
    (.allow (config.max - e.count), some e)

/-- One run of the `rateLimiter` middleware over the store entry of the
client key, returning the outcome and the stored entry afterwards.
The probabilistic `cleanupRateLimit()` call only evicts stale entries of
other keys and is not part of the per-request decision modelled here. -/
def rateLimiterStep (config : RateConfig) (now : Int)
    (entry0 : Option RateLimitEntry) : RateOutcome × Option RateLimitEntry :=
  match entry0 with
  | some e =>
      if isActiveBlock now e then
        (.blockedReject (jsCeilDiv (e.blockUntil.getD 0 - now) 1000), some e)
      else
        afterBump config now (bumpEntry config now (some e))
  | none => afterBump config now (bumpEntry config now none)

/-! ### Input validation and sanitization (`validateInput` and friends) -/

/-- Lowercase the characters of a string (models the `i` regex flag for the
ASCII-only patterns used by the blocklist). -/
def lowerChars (s : String) : List Char := s.toList.map Char.toLower

/-- Does `pat` occur at the head of the second list? -/
def patAtHead : List Char → List Char → Bool
  | [], _ => true
  | _ :: _, [] => false
  | a :: ps, b :: ss => a == b && patAtHead ps ss

/-- Does `pat` occur anywhere in the list? -/
def patIn (pat : List Char) : List Char → Bool
  | [] => pat.isEmpty
  | b :: ss => patAtHead pat (b :: ss) || patIn pat ss

/-- Case-insensitive substring test, the meaning of the `/…/i` literal
patterns of `SUSPICIOUS_PATTERNS`. -/
def containsCI (s pat : String) : Bool := patIn (lowerChars pat) (lowerChars s)

/-- Is a `>` reachable without crossing a line terminator? (JS `.` does not
match newlines.) -/
def gtBeforeNewline : List Char → Bool
  | [] => false
  | c :: rest =>
      if c == '>' then true
      else if c == '\n' || c == '\r' then false
      else gtBeforeNewline rest

/-- The regex `/<.*>/`. -/
def angleTagMatch : List Char → Bool
  | [] => false
  | c :: rest => (c == '<' && gtBeforeNewline rest) || angleTagMatch rest

/-- `SECURITY_CONFIG.SUSPICIOUS_PATTERNS`: `/script/i`, `/<.*>/`,
`/javascript:/i`, `/vbscript:/i`, `/onload/i`, `/onclick/i`, `/eval\(/i`,
`/expression\(/i`. -/
def suspiciousHit (s : String) : Bool :=
  containsCI s "script" || angleTagMatch s.toList || containsCI s "javascript:" ||
    containsCI s "vbscript:" || containsCI s "onload" || containsCI s "onclick" ||
    containsCI s "eval(" || containsCI s "expression("

/-- `String.prototype.trim` over characters. -/
def jsTrim (s : String) : String :=
  String.mk (((s.toList.dropWhile Char.isWhitespace).reverse.dropWhile
    Char.isWhitespace).reverse)

/-- Single-character image of the five escape replacements. -/
def escapeChar (c : Char) : String :=
  if c == '&' then "&amp;"
  else if c == '<' then "&lt;"
  else if c == '>' then "&gt;"
  else if c == Char.ofNat 34 then "&quot;"
  else if c == Char.ofNat 39 then "&#039;"
  else String.singleton c

/-- The five sequential global `.replace` calls of `sanitizeString`. The `&`
pass runs first and no replacement output contains a character that a later
pass rewrites, so the sequence equals this single character-wise pass. -/
def escapeHtml (s : String) : String := String.join (s.toList.map escapeChar)

/-- JS truthiness of an optional string (absent and empty are falsy). -/
def truthyStr : Option String → Bool
  | none => false
  | some s => !(s == "")

/-- Truthiness of `field?.trim()`. -/
def truthyTrim : Option String → Bool
  | none => false
  | some s => !(jsTrim s == "")

/-- `SECURITY_CONFIG.INPUT_LIMITS`. -/
def PREDICTION_TEXT_MAX : Nat := 2000

/-- `SECURITY_CONFIG.INPUT_LIMITS.PREDICTOR_NAME_MAX`. -/
def PREDICTOR_NAME_MAX : Nat := 100

/-- `SECURITY_CONFIG.INPUT_LIMITS.DESCRIPTION_MAX`. -/
def DESCRIPTION_MAX : Nat := 500

/-- `SECURITY_CONFIG.INPUT_LIMITS.NOTES_MAX`. -/
def NOTES_MAX : Nat := 1000

/-- `sanitizeString(str, maxLength, fieldName)`: absent or empty input yields
`''` with no error; a blocklist hit pushes the malicious-content message for
the field and yields `''`; otherwise trim, cut to `maxLength` units and
HTML-escape. Returned as value plus the pushed error messages. -/
def sanitizeString (str : Option String) (maxLength : Nat) (fieldName : String) :
    String × List String :=
  match str with
  | none => ("", [])
  | some s =>
      if s == "" then ("", [])
      else if suspiciousHit s then
        ("", [fieldName ++ " contains potentially malicious content"])
      else
        (escapeHtml (String.mk ((jsTrim s).toList.take maxLength)), [])

/-- External JS behaviour the validator depends on: `new Date` parsing
(`none` is an Invalid Date), the clock at `new Date()`, and `new URL`
(`none` means the constructor throws, otherwise the protocol). -/
structure JsEnv where
  parseDate : String → Option Int
  nowTime : Int
  urlProtocol : String → Option String

/-- `validateURL`: a falsy argument passes (optional field); otherwise
`new URL` must succeed with protocol `http:` or `https:`. -/
def validateURL (env : JsEnv) (url : String) : Bool :=
  if url == "" then true
  else
    match env.urlProtocol url with
    | none => false
    | some p => p == "http:" || p == "https:"

/-- `new Date(x)` on an optional raw value (`new Date(undefined)` is an
Invalid Date). -/
def jsNewDate (env : JsEnv) : Option String → Option Int
  | none => none
  | some s => env.parseDate s

/-- JSON body of a prediction submission, abstracted at the points the code
consumes it: raw optional strings, and the `parseInt` image of
`confidence_level` (`none` = NaN, i.e. absent or non-numeric). -/
structure PredictionBody where
  predictor_name : Option String := none
  prediction_text : Option String := none
  predicted_date : Option String := none
  target_date : Option String := none
  target_description : Option String := none
  category : Option String := none
  confidence_level : Option Int := none
  source_url : Option String := none
  notes : Option String := none
deriving DecidableEq

/-- The `sanitized` object built for a prediction. -/
structure SanitizedPrediction where
  predictor_name : String
  prediction_text : String
  target_description : String
  notes : String
  predicted_date : Option String
  target_date : Option String
  category : String
  confidence_level : Int
  source_url : Option String
deriving DecidableEq

/-- Return shape of `validateInput`. -/
structure ValidationResult (α : Type) where
  isValid : Bool
  errors : List String
  sanitized : Option α
deriving DecidableEq

/-- The nine category enum values. -/
def validCategories : List String :=
  ["general", "technology", "economics", "politics", "climate", "sports",
   "health", "society", "science"]

/-- `confidence || 5` (NaN and 0 are falsy). -/
def confOr5 : Option Int → Int
  | none => 5
  | some n => if n == 0 then 5 else n

/-- `Math.max(1, Math.min(10, x))`. -/
def clamp110 (x : Int) : Int := max 1 (min 10 x)

/-- `validateInput(data, 'prediction')`. Errors are accumulated in the
source's push order: required fields, the four `sanitizeString` calls, the
date checks, the confidence check, the URL check; `isValid` is
`errors.length === 0` and `sanitized` is returned only in that case. -/
def validateInputPrediction (env : JsEnv) (d : PredictionBody) :
    ValidationResult SanitizedPrediction :=
  let reqErrs :=
    (if truthyTrim d.predictor_name then [] else ["Predictor name is required"]) ++
    (if truthyTrim d.prediction_text then [] else ["Prediction text is required"]) ++
    (if truthyStr d.predicted_date then [] else ["Predicted date is required"])
  let sName := sanitizeString d.predictor_name PREDICTOR_NAME_MAX "Predictor name"
  let sText := sanitizeString d.prediction_text PREDICTION_TEXT_MAX "Prediction text"
  let sDesc := sanitizeString d.target_description DESCRIPTION_MAX "Target description"
  let sNotes := sanitizeString d.notes NOTES_MAX "Notes"
  let predDate := jsNewDate env d.predicted_date
  let targetDate : Option (Option Int) :=
    if truthyStr d.target_date then some (jsNewDate env d.target_date) else none
  let dateErrs :=
    (if predDate.isNone then ["Invalid predicted date"] else []) ++
    (match predDate with
     | some t => if t > env.nowTime then ["Predicted date cannot be in the future"] else []
     | none => []) ++
    (match targetDate with
     | some none => ["Invalid target date"]
     | _ => []) ++
    (match targetDate, predDate with
     | some (some tt), some pt =>
         if tt ≤ pt then ["Target date must be after predicted date"] else []
     | _, _ => [])
  let confErr :=
    match d.confidence_level with
    | none => ["Confidence level must be between 1 and 10"]
    | some n => if n < 1 || n > 10 then ["Confidence level must be between 1 and 10"] else []
  let urlBad := truthyStr d.source_url && !(validateURL env (d.source_url.getD ""))
  let urlErr := if urlBad then ["Invalid source URL"] else []
  let errors :=
    reqErrs ++ sName.2 ++ sText.2 ++ sDesc.2 ++ sNotes.2 ++ dateErrs ++ confErr ++ urlErr
  { isValid := errors.isEmpty
    errors := errors
    sanitized :=
      if errors.isEmpty then
        some { predictor_name := sName.1, prediction_text := sText.1,
               target_description := sDesc.1, notes := sNotes.1,
               predicted_date := d.predicted_date, target_date := d.target_date,
               category :=
                 match d.category with
                 | some c => if validCategories.contains c then c else "general"
                 | none => "general",
               confidence_level := clamp110 (confOr5 d.confidence_level),
               source_url := if urlBad then none else d.source_url }
      else none }

/-- JSON body of a verification submission. -/
structure VerificationBody where
  outcome : Option String := none
  outcome_description : Option String := none
  evidence_url : Option String := none
  verified_by : Option String := none
  confidence_score : Option Int := none
  notes : Option String := none
deriving DecidableEq

/-- The `sanitized` object built for a verification. -/
structure SanitizedVerification where
  outcome_description : String
  verified_by : String
  notes : String
  outcome : Option String
  confidence_score : Int
  evidence_url : Option String
deriving DecidableEq

/-- The five outcome enum values. -/
def validOutcomes : List String :=
  ["correct", "incorrect", "partially_correct", "too_early", "unprovable"]

/-- `validateInput(data, 'verification')`, in the source's push order:
required fields, the three `sanitizeString` calls, the outcome enum check,
the confidence check, the URL check. -/
def validateInputVerification (env : JsEnv) (d : VerificationBody) :
    ValidationResult SanitizedVerification :=
  let reqErrs :=
    (if truthyStr d.outcome then [] else ["Outcome is required"]) ++
    (if truthyTrim d.outcome_description then [] else ["Outcome description is required"]) ++
    (if truthyTrim d.verified_by then [] else ["Verified by is required"])
  let sDesc := sanitizeString d.outcome_description DESCRIPTION_MAX "Outcome description"
  let sBy := sanitizeString d.verified_by PREDICTOR_NAME_MAX "Verified by"
  let sNotes := sanitizeString d.notes NOTES_MAX "Verification notes"
  let outcomeErr :=
    match d.outcome with
    | some c => if validOutcomes.contains c then [] else ["Invalid outcome value"]
    | none => ["Invalid outcome value"]
  let confErr :=
    match d.confidence_score with
    | none => ["Confidence score must be between 1 and 10"]
    | some n => if n < 1 || n > 10 then ["Confidence score must be between 1 and 10"] else []
  let urlBad := truthyStr d.evidence_url && !(validateURL env (d.evidence_url.getD ""))
  let urlErr := if urlBad then ["Invalid evidence URL"] else []
  let errors := reqErrs ++ sDesc.2 ++ sBy.2 ++ sNotes.2 ++ outcomeErr ++ confErr ++ urlErr
  { isValid := errors.isEmpty
    errors := errors
    sanitized :=
      if errors.isEmpty then
        some { outcome_description := sDesc.1, verified_by := sBy.1, notes := sNotes.1,
               outcome := d.outcome,
               confidence_score := clamp110 (confOr5 d.confidence_score),
               evidence_url := if urlBad then none else d.evidence_url }
      else none }

/-- `validateHoneypot(value)`: passes when the value is falsy or the empty
string. -/
def validateHoneypot : Option String → Bool
  | none => true
  | some s => s == ""

/-- `validateCaptcha(userAnswer, expectedAnswer)` on the `parseInt` images of
its arguments (`none` = NaN): false if either is NaN, else strict equality. -/
def validateCaptcha : Option Int → Option Int → Bool
  | some u, some e => u == e
  | _, _ => false

end Part001

/-! ## The part_000 POST handlers -/

namespace Part000

/-- Body of `POST /api/predictions` as the part_000 handler consumes it: the
prediction fields plus the honeypot fields and the `parseInt` images of the
CAPTCHA answer and expected answer. -/
structure PredPostBody extends Part001.PredictionBody where
  website : Option String := none
  email_address : Option String := none
  full_name : Option String := none
  captcha_answer : Option Int := none
  captcha_expected : Option Int := none
deriving DecidableEq

/-- Observable outcome of a POST handler: an error response, or the row
passed to the INSERT statement (a 200 with the new id). -/
inductive ApiResult (ρ : Type) where
  | reject (status : Nat) (error : String) (details : List String)
  | inserted (row : ρ)
deriving DecidableEq

/-- HTTP status of the handler outcome. -/
def ApiResult.statusCode {ρ : Type} : ApiResult ρ → Nat
  | .reject s _ _ => s
  | .inserted _ => 200

/-- The row inserted by the handler outcome, if any. -/
def ApiResult.insertedRow {ρ : Type} : ApiResult ρ → Option ρ
  | .reject _ _ _ => none
  | .inserted r => some r

/-- The part_000 `POST /api/predictions` handler after JSON parsing: honeypot
check (400 `Invalid request`), CAPTCHA check (400 `Security verification
failed`), `validateInput` (400 `Validation failed` with the error list), then
the INSERT of the sanitized row. Matching on `sanitized` is the handler's
`isValid` test: the validator returns `sanitized` exactly when it is valid. -/
def postPredictions (env : Part001.JsEnv) (b : PredPostBody) :
    ApiResult Part001.SanitizedPrediction :=
  if !(Part001.validateHoneypot b.website) || !(Part001.validateHoneypot b.email_address) ||
      !(Part001.validateHoneypot b.full_name) then
    .reject 400 "Invalid request" []
  else if !(Part001.validateCaptcha b.captcha_answer b.captcha_expected) then
    .reject 400 "Security verification failed" []
  else
    let v := Part001.validateInputPrediction env b.toPredictionBody
    match v.sanitized with
    | some s => .inserted s
    | none => .reject 400 "Validation failed" v.errors

/-- Body of `POST /api/predictions/:id/verify` in the part_000 handler. -/
structure VerifyPostBody extends Part001.VerificationBody where
  website : Option String := none
  email_address : Option String := none
  company : Option String := none
  captcha_answer : Option Int := none
  captcha_expected : Option Int := none
deriving DecidableEq

/-- The part_000 `POST /api/predictions/:id/verify` handler: id check (the
`parseInt` image must be a number `> 0`, else 400), honeypot (400), CAPTCHA
(400), `validateInput` (400), then the INSERT binding `prediction_id`. This
handler queries neither the predictions nor the verifications table. -/
def postVerify (env : Part001.JsEnv) (idNum : Option Int) (b : VerifyPostBody) :
    ApiResult (Int × Part001.SanitizedVerification) :=
  match idNum with
  | none => .reject 400 "Invalid prediction ID" []
  | some n =>
      if n ≤ 0 then .reject 400 "Invalid prediction ID" []
      else if !(Part001.validateHoneypot b.website) ||
          !(Part001.validateHoneypot b.email_address) ||
          !(Part001.validateHoneypot b.company) then
        .reject 400 "Invalid request" []
      else if !(Part001.validateCaptcha b.captcha_answer b.captcha_expected) then
        .reject 400 "Security verification failed" []
      else
        let v := Part001.validateInputVerification env b.toVerificationBody
        match v.sanitized with
        | some s => .inserted (n, s)
        | none => .reject 400 "Validation failed" v.errors

end Part000

/-! ## The `src/index.tsx` verify handler (middleware generation) -/

namespace SrcIndex

/-- Database view used by the verify handler: the ids of the prediction rows
and the `prediction_id` column of the verification rows. -/
structure Db where
  predictionIds : List Int
  verificationPredIds : List Int
deriving DecidableEq

/-- Verification body as the `src/index.tsx` handler consumes it
(`confidence_score` is the raw numeric value, `none` = absent). -/
structure VerifyBody where
  outcome : Option String := none
  outcome_description : Option String := none
  evidence_url : Option String := none
  verified_by : Option String := none
  confidence_score : Option Int := none
  notes : Option String := none
deriving DecidableEq

/-- Observable outcome of the handler. -/
inductive VerifyResult where
  | badRequest (error : String)
  | notFound
  | inserted (prediction_id : Int) (outcome : String)
deriving DecidableEq

/-- HTTP status of the handler outcome. -/
def VerifyResult.status : VerifyResult → Nat
  | .badRequest _ => 400
  | .notFound => 404
  | .inserted _ _ => 200

/-- JS truthiness of an optional number (`0` and NaN are falsy). -/
def jsTruthyNum : Option Int → Bool
  | none => false
  | some n => !(n == 0)

/-- The five outcome enum values (the handler's own copy). -/
def validOutcomes : List String :=
  ["correct", "incorrect", "partially_correct", "too_early", "unprovable"]

/-- `POST /api/predictions/:id/verify` of `src/index.tsx`: id check, required
fields, outcome enum, confidence range (skipped when `confidence_score` is
falsy), then `SELECT id FROM predictions WHERE id = ?` (404 when absent),
`SELECT id FROM verifications WHERE prediction_id = ?` (400 when present),
and only then the INSERT. Numeric-id lookups use the integer value: SQLite's
INTEGER affinity coerces the bound text of a canonical numeric id. -/
def postVerify (db : Db) (idNum : Option Int) (b : VerifyBody) : VerifyResult :=
  match idNum with
  | none => .badRequest "Invalid prediction ID"
  | some n =>
      if n ≤ 0 then .badRequest "Invalid prediction ID"
      else if !(Part001.truthyStr b.outcome) || !(Part001.truthyStr b.outcome_description) ||
          !(Part001.truthyStr b.verified_by) then
        .badRequest "Missing required fields"
      else if !(validOutcomes.contains (b.outcome.getD "")) then
        .badRequest "Invalid outcome"
      else if jsTruthyNum b.confidence_score &&
          (decide ((b.confidence_score.getD 0) < 1) ||
           decide ((b.confidence_score.getD 0) > 10)) then
        .badRequest "Invalid confidence score"
      else if !(db.predictionIds.contains n) then .notFound
      else if db.verificationPredIds.contains n then
        .badRequest "Prediction already verified"
      else .inserted n (b.outcome.getD "")

/-- A body that passes every field check the handler makes before touching
the database: required fields present, a valid outcome, and a confidence
score that is falsy or within 1..10. -/
def bodyOk (b : VerifyBody) : Bool :=
  Part001.truthyStr b.outcome && Part001.truthyStr b.outcome_description &&
    Part001.truthyStr b.verified_by && validOutcomes.contains (b.outcome.getD "") &&
    !(jsTruthyNum b.confidence_score &&
      (decide ((b.confidence_score.getD 0) < 1) ||
       decide ((b.confidence_score.getD 0) > 10)))

end SrcIndex

/-! ## `GET /api/predictions` (shared by both index versions) -/

namespace IndexApi

/-- A stored prediction row, restricted to the fields the list endpoint
reads; the schema stores no status column. -/
structure Prediction where
  id : Int
  category : String
  target_date : Option String := none
deriving DecidableEq

/-- A verification row (only the join key matters for the status). -/
structure Verification where
  id : Int
  prediction_id : Int
deriving DecidableEq

/-- One row of the LEFT JOIN result with its derived `verification_status`. -/
structure Row where
  pred : Prediction
  verification : Option Verification
  verification_status : String
deriving DecidableEq

/-- The SQL `CASE WHEN v.id IS NOT NULL THEN 'verified' WHEN p.target_date IS
NOT NULL AND p.target_date < date('now') THEN 'overdue' ELSE 'pending' END`;
ISO date strings compare by SQLite text ordering. -/
def caseStatus (v : Option Verification) (target : Option String) (today : String) :
    String :=
  if v.isSome then "verified"
  else if (match target with
           | some t => decide (t < today)
           | none => false) then "overdue"
  else "pending"

/-- The LEFT JOIN rows contributed by one prediction: one row per matching
verification, or a single all-NULL verification row. -/
def rowsFor (verifs : List Verification) (today : String) (p : Prediction) :
    List Row :=
  match verifs.filter (fun v => v.prediction_id == p.id) with
  | [] => [{ pred := p, verification := none,
             verification_status := caseStatus none p.target_date today }]
  | vs =>
      vs.map (fun v =>
        { pred := p, verification := some v,
          verification_status := caseStatus (some v) p.target_date today })

/-- `GET /api/predictions`: the optional SQL category filter (an empty query
value is falsy and filters nothing), the LEFT JOIN with derived status, then
the in-JS `verification_status` filter. `ORDER BY created_at DESC` only
permutes rows and is not modelled. -/
def getPredictions (preds : List Prediction) (verifs : List Verification)
    (category : Option String) (status : Option String) (today : String) :
    List Row :=
  let base :=
    match category with
    | some c => if c == "" then preds else preds.filter (fun p => p.category == c)
    | none => preds
  let joined := base.flatMap (rowsFor verifs today)
  match status with
  | some st =>
      if st == "" then joined
      else joined.filter (fun r => r.verification_status == st)
  | none => joined

end IndexApi

/-! ## Concrete fixtures used by witness theorems -/

/-- A concrete environment for evaluating witnesses: two parseable date
strings (one in the past, one in the future of `nowTime`), everything else
an Invalid Date, and a URL constructor that always throws. -/
def testEnv : Part001.JsEnv where
  parseDate s :=
    if s = "2020-01-01" then some 100
    else if s = "2120-01-01" then some 99999
    else none
  nowTime := 1000
  urlProtocol _ := none

/-- A prediction body that passes every check of `validateInput`. -/
def dOk : Part001.PredictionBody :=
  { predictor_name := some "A", prediction_text := some "X",
    predicted_date := some "2020-01-01", confidence_level := some 5 }

/-- A verification body that passes every check of `validateInput`. -/
def dvOk : Part001.VerificationBody :=
  { outcome := some "correct", outcome_description := some "It happened",
    verified_by := some "B", confidence_score := some 7 }

/-- A POST body whose hidden `email_address` honeypot field is non-empty. -/
def hpBody : Part000.PredPostBody := { email_address := some "x" }

/-- A POST body lacking the CAPTCHA fields (their `parseInt` is NaN). -/
def noCaptchaBody : Part000.PredPostBody := {}

/-- A POST body with passing honeypot and CAPTCHA fields but an invalid
prediction payload (all required fields missing). -/
def bInvalid : Part000.PredPostBody :=
  { captcha_answer := some 2, captcha_expected := some 2 }

/-- A verify body passing every field check of the `src/index.tsx` handler. -/
def vOkBody : SrcIndex.VerifyBody :=
  { outcome := some "correct", outcome_description := some "d",
    verified_by := some "v", confidence_score := some 7 }

/-- A database in which prediction 5 exists and is already verified. -/
def db0 : SrcIndex.Db := { predictionIds := [5], verificationPredIds := [5] }

/-- One stored prediction with no target date. -/
def p0 : IndexApi.Prediction := { id := 1, category := "general" }

end Predictor

open Predictor

/-! ## Helper lemmas -/

lemma afterBump_store (config : Part001.RateConfig) (now : Int)
    (e : Part001.RateLimitEntry) :
    ∃ e1, (Part001.afterBump config now e).2 = some e1 ∧
      e1.count = e.count ∧ e1.windowStart = e.windowStart := by
  unfold Part001.afterBump
  split
  · split
    · exact ⟨_, rfl, rfl, rfl⟩
    · exact ⟨e, rfl, rfl, rfl⟩
  · exact ⟨e, rfl, rfl, rfl⟩

lemma jsCeilDiv_mul_le (a w : Int) (h : a ≤ w) (hd : (1000 : Int) ∣ w) :
    Part001.jsCeilDiv a 1000 * 1000 ≤ w := by
  obtain ⟨k, rfl⟩ := hd
  unfold Part001.jsCeilDiv
  omega

lemma mem_sanitize {m : String} {o : Option String} {mx : Nat} {fn : String}
    (h : m ∈ (Part001.sanitizeString o mx fn).2) :
    m = fn ++ " contains potentially malicious content" := by
  rcases o with _ | s
  · simp [Part001.sanitizeString] at h
  · simp only [Part001.sanitizeString] at h
    split at h
    · simp at h
    · split at h
      · simpa using h
      · simp at h

lemma vip_isValid_eq (env : Part001.JsEnv) (d : Part001.PredictionBody) :
    (Part001.validateInputPrediction env d).isValid =
      (Part001.validateInputPrediction env d).errors.isEmpty := rfl

lemma viv_isValid_eq (env : Part001.JsEnv) (dv : Part001.VerificationBody) :
    (Part001.validateInputVerification env dv).isValid =
      (Part001.validateInputVerification env dv).errors.isEmpty := rfl

lemma isSome_ite_some {α : Type} (c : Bool) (s : α) :
    (if c = true then some s else none).isSome = c := by
  cases c <;> simp

lemma vip_sanitized_isSome (env : Part001.JsEnv) (d : Part001.PredictionBody) :
    (Part001.validateInputPrediction env d).sanitized.isSome =
      (Part001.validateInputPrediction env d).errors.isEmpty := by
  unfold Part001.validateInputPrediction
  dsimp only
  exact isSome_ite_some _ _

lemma viv_sanitized_isSome (env : Part001.JsEnv) (dv : Part001.VerificationBody) :
    (Part001.validateInputVerification env dv).sanitized.isSome =
      (Part001.validateInputVerification env dv).errors.isEmpty := by
  unfold Part001.validateInputVerification
  dsimp only
  exact isSome_ite_some _ _

lemma vip_invalid_of_mem {env : Part001.JsEnv} {d : Part001.PredictionBody} {m : String}
    (h : m ∈ (Part001.validateInputPrediction env d).errors) :
    (Part001.validateInputPrediction env d).isValid = false := by
  rw [vip_isValid_eq]
  rcases he : (Part001.validateInputPrediction env d).errors with _ | ⟨a, l⟩
  · rw [he] at h
    simp at h
  · rfl

lemma viv_invalid_of_mem {env : Part001.JsEnv} {dv : Part001.VerificationBody} {m : String}
    (h : m ∈ (Part001.validateInputVerification env dv).errors) :
    (Part001.validateInputVerification env dv).isValid = false := by
  rw [viv_isValid_eq]
  rcases he : (Part001.validateInputVerification env dv).errors with _ | ⟨a, l⟩
  · rw [he] at h
    simp at h
  · rfl

lemma vip_sanitized_none {env : Part001.JsEnv} {d : Part001.PredictionBody}
    (h : (Part001.validateInputPrediction env d).isValid = false) :
    (Part001.validateInputPrediction env d).sanitized = none := by
  have hs := vip_sanitized_isSome env d
  rw [← vip_isValid_eq, h] at hs
  exact Option.not_isSome_iff_eq_none.mp (by simp [hs])

lemma viv_sanitized_none {env : Part001.JsEnv} {dv : Part001.VerificationBody}
    (h : (Part001.validateInputVerification env dv).isValid = false) :
    (Part001.validateInputVerification env dv).sanitized = none := by
  have hs := viv_sanitized_isSome env dv
  rw [← viv_isValid_eq, h] at hs
  exact Option.not_isSome_iff_eq_none.mp (by simp [hs])

lemma captcha_none_left (e : Option Int) :
    Part001.validateCaptcha none e = false := by
  cases e <;> rfl

lemma captcha_none_right (u : Option Int) :
    Part001.validateCaptcha u none = false := by
  cases u <;> rfl

lemma rowsFor_status (verifs : List IndexApi.Verification) (today : String)
    (p : IndexApi.Prediction) :
    ∀ row ∈ IndexApi.rowsFor verifs today p,
      row.pred = p ∧
      row.verification_status =
        (if verifs.any (fun v => v.prediction_id == p.id) then "verified"
         else if (match p.target_date with
                  | some t => decide (t < today)
                  | none => false) then "overdue"
         else "pending") := by
  intro row hrow
  unfold IndexApi.rowsFor at hrow
  rcases hf : verifs.filter (fun v => v.prediction_id == p.id) with _ | ⟨v, vs⟩
  · rw [hf] at hrow
    simp only [List.mem_singleton] at hrow
    subst hrow
    have hany : verifs.any (fun v => v.prediction_id == p.id) = false := by
      rw [List.any_eq_false]
      intro v hv
      have : v ∉ verifs.filter (fun v => v.prediction_id == p.id) := by
        rw [hf]
        simp
      intro hpv
      exact this (List.mem_filter.mpr ⟨hv, hpv⟩)
    simp [IndexApi.caseStatus, hany]
  · rw [hf] at hrow
    simp only [List.mem_map] at hrow
    obtain ⟨v1, hv1, rfl⟩ := hrow
    have hv1f : v1 ∈ verifs.filter (fun v => v.prediction_id == p.id) := by
      rw [hf]
      exact hv1
    obtain ⟨hv1m, hv1p⟩ := List.mem_filter.mp hv1f
    have hany : verifs.any (fun v => v.prediction_id == p.id) = true :=
      List.any_eq_true.mpr ⟨v1, hv1m, hv1p⟩
    simp [IndexApi.caseStatus, hany]

/-! ## Claim theorems -/

/-- C1: the `rateLimiter` middleware of the part_001 security module processes
every request by the spec's steps over the per-key entry
`{count, windowStart, blocked, blockUntil}`: an active unexpired block is
rejected with 429 and a retry-after hint without advancing the counter; else a
missing entry or an expired window resets the entry to count 1 with
`windowStart = now` while a live window increments the count; a resulting
count over the configured ceiling is rejected with 429 (with the remaining
time hint when not suspicious), a count over the suspicious ceiling 100
additionally marks the entry blocked until 15 minutes ahead, and a count
within the ceiling proceeds to the next handler. -/
theorem c1_rate_limiter_follows_spec_steps
    (config : Part001.RateConfig) (now : Int)
    (entry0 : Option Part001.RateLimitEntry) :
    (∀ e, entry0 = some e → Part001.isActiveBlock now e = true →
      Part001.rateLimiterStep config now entry0 =
        (Part001.RateOutcome.blockedReject
           (Part001.jsCeilDiv (e.blockUntil.getD 0 - now) 1000), some e)) ∧
    ((∀ e, entry0 = some e → Part001.isActiveBlock now e = false) →
      ((entry0 = none ∨ ∃ e, entry0 = some e ∧ now - e.windowStart > config.window) →
        ∃ e1, (Part001.rateLimiterStep config now entry0).2 = some e1 ∧
          e1.count = 1 ∧ e1.windowStart = now) ∧
      (∀ e, entry0 = some e → ¬(now - e.windowStart > config.window) →
        ∃ e1, (Part001.rateLimiterStep config now entry0).2 = some e1 ∧
          e1.count = e.count + 1 ∧ e1.windowStart = e.windowStart) ∧
      ((Part001.bumpEntry config now entry0).count > config.max →
        (Part001.rateLimiterStep config now entry0).1.status = some 429) ∧
      ((Part001.bumpEntry config now entry0).count > config.max →
        (Part001.bumpEntry config now entry0).count ≤ Part001.SUSPICIOUS_THRESHOLD →
        (Part001.rateLimiterStep config now entry0).1 =
          Part001.RateOutcome.limitReject config.max config.window
            (Part001.jsCeilDiv
              ((Part001.bumpEntry config now entry0).windowStart + config.window - now)
              1000)) ∧
      ((Part001.bumpEntry config now entry0).count > config.max →
        (Part001.bumpEntry config now entry0).count > Part001.SUSPICIOUS_THRESHOLD →
        (Part001.rateLimiterStep config now entry0).1 =
          Part001.RateOutcome.suspiciousReject (Part001.BLOCK_DURATION / 1000) ∧
        ∃ e1, (Part001.rateLimiterStep config now entry0).2 = some e1 ∧
          e1.blocked = true ∧ e1.blockUntil = some (now + Part001.BLOCK_DURATION)) ∧
      ((Part001.bumpEntry config now entry0).count ≤ config.max →
        (Part001.rateLimiterStep config now entry0).1 =
          Part001.RateOutcome.allow
            (config.max - (Part001.bumpEntry config now entry0).count) ∧
        (Part001.rateLimiterStep config now entry0).1.status = none)) := by
  constructor
  · rintro e rfl hact
    simp [Part001.rateLimiterStep, hact]
  · intro hnb
    have hstep : Part001.rateLimiterStep config now entry0 =
        Part001.afterBump config now (Part001.bumpEntry config now entry0) := by
      cases entry0 with
      | none => rfl
      | some e =>
          have := hnb e rfl
          simp [Part001.rateLimiterStep, this]
    refine ⟨?_, ?_, ?_, ?_, ?_, ?_⟩
    · rintro (rfl | ⟨e, rfl, hex⟩)
      · rw [hstep]
        obtain ⟨e1, h1, h2, h3⟩ :=
          afterBump_store config now (Part001.bumpEntry config now none)
        exact ⟨e1, h1, by simpa [Part001.bumpEntry] using h2,
          by simpa [Part001.bumpEntry] using h3⟩
      · rw [hstep]
        obtain ⟨e1, h1, h2, h3⟩ :=
          afterBump_store config now (Part001.bumpEntry config now (some e))
        refine ⟨e1, h1, ?_, ?_⟩
        · rw [h2]; simp [Part001.bumpEntry, hex]
        · rw [h3]; simp [Part001.bumpEntry, hex]
    · rintro e rfl hlive
      rw [hstep]
      obtain ⟨e1, h1, h2, h3⟩ :=
        afterBump_store config now (Part001.bumpEntry config now (some e))
      refine ⟨e1, h1, ?_, ?_⟩
      · rw [h2]; simp [Part001.bumpEntry, hlive]
      · rw [h3]; simp [Part001.bumpEntry, hlive]
    · intro hover
      rw [hstep]
      unfold Part001.afterBump
      simp only [hover, if_pos]
      split <;> rfl
    · intro hover hnotsus
      rw [hstep]
      unfold Part001.afterBump
      rw [if_pos hover, if_neg (by omega)]
    · intro hover hsus
      rw [hstep]
      unfold Part001.afterBump
      rw [if_pos hover, if_pos hsus]
      exact ⟨rfl, _, rfl, rfl, rfl⟩
    · intro hle
      rw [hstep]
      unfold Part001.afterBump
      rw [if_neg (by omega)]
      exact ⟨rfl, rfl⟩

/-- C1 witness: concrete runs exercising the blocked-rejection clause and the
within-ceiling clause of the theorem. -/
theorem c1_rate_limiter_follows_spec_steps_witness :
    Part001.rateLimiterStep (Part001.configFor none) 500
        (some { count := 7, windowStart := 0, blocked := true, blockUntil := some 1000 }) =
      (Part001.RateOutcome.blockedReject 1,
       some { count := 7, windowStart := 0, blocked := true, blockUntil := some 1000 }) :=
  (c1_rate_limiter_follows_spec_steps (Part001.configFor none) 500
      (some { count := 7, windowStart := 0, blocked := true, blockUntil := some 1000 })).1
    _ rfl (by decide)

/-- C2 counterexample: a request that exceeds the configured ceiling and the
suspicious ceiling (count 101 > 30 with the global config) is answered with
429 and `retryAfter = 900` seconds, which exceeds the 60000 ms (60 s) window
length. -/
theorem c2_suspicious_retry_exceeds_window :
    Part001.rateLimiterStep (Part001.configFor none) 1000000
        (some { count := 100, windowStart := 999000, blocked := false, blockUntil := none }) =
      (Part001.RateOutcome.suspiciousReject 900,
       some { count := 101, windowStart := 999000, blocked := true,
              blockUntil := some 1900000 }) ∧
    (Part001.configFor none).window = 60000 ∧ ¬ ((900 : Int) * 1000 ≤ 60000) := by
  refine ⟨by decide, by decide, by decide⟩

/-- C2 amended: for a window length divisible by 1000 ms and an entry whose
window started no later than `now`, a plain over-ceiling rejection carries a
retry-after of at most the window length, while the suspicious-branch
rejection always carries the 15-minute block duration (900 s) instead. -/
theorem c2_retry_after_bound
    (config : Part001.RateConfig) (now : Int)
    (entry0 : Option Part001.RateLimitEntry)
    (hdvd : (1000 : Int) ∣ config.window)
    (hws : ∀ e, entry0 = some e → e.windowStart ≤ now) :
    (∀ l w r, (Part001.rateLimiterStep config now entry0).1 =
        Part001.RateOutcome.limitReject l w r → r * 1000 ≤ config.window) ∧
    (∀ r, (Part001.rateLimiterStep config now entry0).1 =
        Part001.RateOutcome.suspiciousReject r → r = 900) := by
  have hb : (Part001.bumpEntry config now entry0).windowStart ≤ now := by
    cases entry0 with
    | none => simp [Part001.bumpEntry]
    | some e =>
        have h := hws e rfl
        simp only [Part001.bumpEntry]
        split
        · simp
        · simpa using h
  constructor
  · intro l w r hr
    cases entry0 with
    | none =>
        rw [Part001.rateLimiterStep] at hr
        unfold Part001.afterBump at hr
        split at hr
        · split at hr
          · exact absurd hr (by simp)
          · simp only [Part001.RateOutcome.limitReject.injEq] at hr
            obtain ⟨_, _, rfl⟩ := hr
            exact jsCeilDiv_mul_le _ _ (by omega) hdvd
        · exact absurd hr (by simp)
    | some e =>
        rw [Part001.rateLimiterStep] at hr
        split at hr
        · exact absurd hr (by simp)
        · unfold Part001.afterBump at hr
          split at hr
          · split at hr
            · exact absurd hr (by simp)
            · simp only [Part001.RateOutcome.limitReject.injEq] at hr
              obtain ⟨_, _, rfl⟩ := hr
              exact jsCeilDiv_mul_le _ _ (by omega) hdvd
          · exact absurd hr (by simp)
  · intro r hr
    cases entry0 with
    | none =>
        rw [Part001.rateLimiterStep] at hr
        unfold Part001.afterBump at hr
        split at hr
        · split at hr
          · simp only [Part001.RateOutcome.suspiciousReject.injEq,
              Part001.BLOCK_DURATION] at hr
            omega
          · exact absurd hr (by simp)
        · exact absurd hr (by simp)
    | some e =>
        rw [Part001.rateLimiterStep] at hr
        split at hr
        · exact absurd hr (by simp)
        · unfold Part001.afterBump at hr
          split at hr
          · split at hr
            · simp only [Part001.RateOutcome.suspiciousReject.injEq,
                Part001.BLOCK_DURATION] at hr
              omega
            · exact absurd hr (by simp)
          · exact absurd hr (by simp)

/-- C2 amended witness: a concrete over-ceiling (non-suspicious) rejection at
count 31 > 30 whose retry-after, 59 s, is within the 60000 ms window. -/
theorem c2_retry_after_bound_witness : (59 : Int) * 1000 ≤ 60000 :=
  (c2_retry_after_bound { max := 30, window := 60000 } 1000000
      (some { count := 30, windowStart := 999000, blocked := false, blockUntil := none })
      (by decide)
      (by
        rintro e he
        simp only [Option.some.injEq] at he
        subst he
        decide)).1 30 60000 59 (by decide)

/-- C3: every row returned by `GET /api/predictions` carries the derived
`verification_status`: `verified` when a verification row exists for the
prediction (regardless of target date), `overdue` when the target date is
strictly before today and there is no verification, and `pending` otherwise
(in particular with no verification and no target date). The status is
computed in the query; the `Prediction` row itself stores no status. -/
theorem c3_verification_status_derived
    (preds : List IndexApi.Prediction) (verifs : List IndexApi.Verification)
    (category status : Option String) (today : String) :
    ∀ row ∈ IndexApi.getPredictions preds verifs category status today,
      row.verification_status =
        (if verifs.any (fun v => v.prediction_id == row.pred.id) then "verified"
         else if (match row.pred.target_date with
                  | some t => decide (t < today)
                  | none => false) then "overdue"
         else "pending") := by
  intro row hrow
  unfold IndexApi.getPredictions at hrow
  dsimp only at hrow
  have hp : ∃ p, row ∈ IndexApi.rowsFor verifs today p := by
    rcases status with _ | st
    · dsimp only at hrow
      obtain ⟨p, _, hp⟩ := List.mem_flatMap.mp hrow
      exact ⟨p, hp⟩
    · dsimp only at hrow
      split at hrow
      · obtain ⟨p, _, hp⟩ := List.mem_flatMap.mp hrow
        exact ⟨p, hp⟩
      · obtain ⟨p, _, hp⟩ := List.mem_flatMap.mp (List.mem_filter.mp hrow).1
        exact ⟨p, hp⟩
  obtain ⟨p, hp⟩ := hp
  obtain ⟨hpred, hstat⟩ := rowsFor_status verifs today p row hp
  rw [hstat, hpred]

/-- C3 witness: a prediction with no verification and no target date is
returned as `pending`. -/
theorem c3_verification_status_derived_witness :
    ({ pred := p0, verification := none, verification_status := "pending" } :
        IndexApi.Row).verification_status =
      (if ([] : List IndexApi.Verification).any (fun v => v.prediction_id == p0.id)
          then "verified"
       else if (match p0.target_date with
                | some t => decide (t < "2024-01-01")
                | none => false) then "overdue"
       else "pending") :=
  c3_verification_status_derived [p0] [] none none "2024-01-01" _ (by decide)

/-- C4: `validateInput` accumulates per-field violations and reports them
together: `isValid` holds exactly when the error list is empty, the
sanitized object is produced exactly when `isValid` holds (so an invalid
request applies none of its fields), independent violations (a missing
predictor name and a bad confidence level) are both reported, and the
part_000 POST handler returns all accumulated messages in a single 400. -/
theorem c4_errors_accumulate_and_gate
    (env : Part001.JsEnv) (d : Part001.PredictionBody)
    (dv : Part001.VerificationBody) (b : Part000.PredPostBody) :
    ((Part001.validateInputPrediction env d).isValid = true ↔
        (Part001.validateInputPrediction env d).errors = []) ∧
    ((Part001.validateInputPrediction env d).sanitized.isSome =
        (Part001.validateInputPrediction env d).isValid) ∧
    ((Part001.validateInputVerification env dv).isValid = true ↔
        (Part001.validateInputVerification env dv).errors = []) ∧
    ((Part001.validateInputVerification env dv).sanitized.isSome =
        (Part001.validateInputVerification env dv).isValid) ∧
    (Part001.truthyTrim d.predictor_name = false →
        "Predictor name is required" ∈ (Part001.validateInputPrediction env d).errors) ∧
    (d.confidence_level = none →
        "Confidence level must be between 1 and 10" ∈
          (Part001.validateInputPrediction env d).errors) ∧
    (Part001.validateHoneypot b.website = true →
        Part001.validateHoneypot b.email_address = true →
        Part001.validateHoneypot b.full_name = true →
        Part001.validateCaptcha b.captcha_answer b.captcha_expected = true →
        (Part001.validateInputPrediction env b.toPredictionBody).isValid = false →
        Part000.postPredictions env b =
          Part000.ApiResult.reject 400 "Validation failed"
            (Part001.validateInputPrediction env b.toPredictionBody).errors) := by
  refine ⟨?_, ?_, ?_, ?_, ?_, ?_, ?_⟩
  · rw [vip_isValid_eq]
    exact List.isEmpty_iff
  · rw [vip_sanitized_isSome, vip_isValid_eq]
  · rw [viv_isValid_eq]
    exact List.isEmpty_iff
  · rw [viv_sanitized_isSome, viv_isValid_eq]
  · intro h
    unfold Part001.validateInputPrediction
    dsimp only
    simp [h]
  · intro h
    unfold Part001.validateInputPrediction
    dsimp only
    simp [h]
  · intro hw he hf hc hinv
    have hs := vip_sanitized_none hinv
    unfold Part000.postPredictions
    rw [hw, he, hf, hc]
    dsimp only
    rw [hs]
    simp

/-- C4 witness: an all-empty body reports the name and confidence violations
together, and the handler surfaces the error list of an invalid body in a
400 response. -/
theorem c4_errors_accumulate_and_gate_witness :
    "Predictor name is required" ∈
        (Part001.validateInputPrediction testEnv {}).errors ∧
    "Confidence level must be between 1 and 10" ∈
        (Part001.validateInputPrediction testEnv {}).errors ∧
    Part000.postPredictions testEnv bInvalid =
      Part000.ApiResult.reject 400 "Validation failed"
        (Part001.validateInputPrediction testEnv bInvalid.toPredictionBody).errors :=
  ⟨(c4_errors_accumulate_and_gate testEnv {} dvOk bInvalid).2.2.2.2.1 rfl,
   (c4_errors_accumulate_and_gate testEnv {} dvOk bInvalid).2.2.2.2.2.1 rfl,
   (c4_errors_accumulate_and_gate testEnv {} dvOk bInvalid).2.2.2.2.2.2
     rfl rfl rfl (by decide) (by decide)⟩

lemma vip_conf_mem_iff (env : Part001.JsEnv) (d : Part001.PredictionBody) :
    ("Confidence level must be between 1 and 10" ∈
        (Part001.validateInputPrediction env d).errors) ↔
      (d.confidence_level = none ∨
        ∃ n, d.confidence_level = some n ∧ (n < 1 ∨ 10 < n)) := by
  constructor
  · intro h
    unfold Part001.validateInputPrediction at h
    dsimp only at h
    simp only [List.mem_append] at h
    rcases h with
      ((((((((h | h) | h) | h) | h) | h) | h) | (((h | h) | h) | h)) | h) | h
    · split at h <;> exact absurd h (by decide)
    · split at h <;> exact absurd h (by decide)
    · split at h <;> exact absurd h (by decide)
    · exact absurd (mem_sanitize h) (by decide)
    · exact absurd (mem_sanitize h) (by decide)
    · exact absurd (mem_sanitize h) (by decide)
    · exact absurd (mem_sanitize h) (by decide)
    · split at h <;> exact absurd h (by decide)
    · rcases hj : Part001.jsNewDate env d.predicted_date with _ | t
      · rw [hj] at h
        dsimp only at h
        exact absurd h (by decide)
      · rw [hj] at h
        dsimp only at h
        split at h <;> exact absurd h (by decide)
    · cases ht : Part001.truthyStr d.target_date
      · rw [ht] at h
        rw [if_neg (by decide : ¬(false = true))] at h
        dsimp only at h
        exact absurd h (by decide)
      · rw [ht] at h
        rw [if_pos (rfl : true = true)] at h
        rcases hj : Part001.jsNewDate env d.target_date with _ | t
        · rw [hj] at h
          dsimp only at h
          exact absurd h (by decide)
        · rw [hj] at h
          dsimp only at h
          exact absurd h (by decide)
    · cases ht : Part001.truthyStr d.target_date
      · rw [ht] at h
        rw [if_neg (by decide : ¬(false = true))] at h
        rcases hk : Part001.jsNewDate env d.predicted_date with _ | s <;>
          rw [hk] at h <;> dsimp only at h <;> exact absurd h (by decide)
      · rw [ht] at h
        rw [if_pos (rfl : true = true)] at h
        rcases hj : Part001.jsNewDate env d.target_date with _ | t
        · rcases hk : Part001.jsNewDate env d.predicted_date with _ | s <;>
            rw [hj, hk] at h <;> dsimp only at h <;> exact absurd h (by decide)
        · rw [hj] at h
          rcases hk : Part001.jsNewDate env d.predicted_date with _ | s
          · rw [hk] at h
            dsimp only at h
            exact absurd h (by decide)
          · rw [hk] at h
            dsimp only at h
            split at h <;> exact absurd h (by decide)
    · have hopt : d.confidence_level = none ∨ ∃ n, d.confidence_level = some n := by
        cases d.confidence_level
        · exact Or.inl rfl
        · exact Or.inr ⟨_, rfl⟩
      rcases hopt with hc | ⟨n, hc⟩
      · exact Or.inl hc
      · rw [hc] at h
        dsimp only at h
        split at h
        · rename_i hcond
          exact Or.inr ⟨n, hc, by simpa using hcond⟩
        · exact absurd h (by decide)
    · split at h <;> exact absurd h (by decide)
  · intro h
    rcases h with hnone | ⟨n, hn, hr⟩
    · unfold Part001.validateInputPrediction
      dsimp only
      rw [hnone]
      simp
    · unfold Part001.validateInputPrediction
      dsimp only
      rw [hn]
      dsimp only
      have hcond : (decide (n < 1) || decide (n > 10)) = true := by
        rcases hr with h1 | h1 <;> simp [h1]
      rw [if_pos hcond]
      simp

lemma viv_conf_mem_iff (env : Part001.JsEnv) (dv : Part001.VerificationBody) :
    ("Confidence score must be between 1 and 10" ∈
        (Part001.validateInputVerification env dv).errors) ↔
      (dv.confidence_score = none ∨
        ∃ n, dv.confidence_score = some n ∧ (n < 1 ∨ 10 < n)) := by
  constructor
  · intro h
    unfold Part001.validateInputVerification at h
    dsimp only at h
    simp only [List.mem_append] at h
    rcases h with (((((((h | h) | h) | h) | h) | h) | h) | h) | h
    · split at h <;> exact absurd h (by decide)
    · split at h <;> exact absurd h (by decide)
    · split at h <;> exact absurd h (by decide)
    · exact absurd (mem_sanitize h) (by decide)
    · exact absurd (mem_sanitize h) (by decide)
    · exact absurd (mem_sanitize h) (by decide)
    · rcases ho : dv.outcome with _ | c
      · rw [ho] at h
        exact absurd h (by decide)
      · rw [ho] at h
        dsimp only at h
        split at h <;> exact absurd h (by decide)
    · have hopt : dv.confidence_score = none ∨ ∃ n, dv.confidence_score = some n := by
        cases dv.confidence_score
        · exact Or.inl rfl
        · exact Or.inr ⟨_, rfl⟩
      rcases hopt with hc | ⟨n, hc⟩
      · exact Or.inl hc
      · rw [hc] at h
        dsimp only at h
        split at h
        · rename_i hcond
          exact Or.inr ⟨n, hc, by simpa using hcond⟩
        · exact absurd h (by decide)
    · split at h <;> exact absurd h (by decide)
  · intro h
    rcases h with hnone | ⟨n, hn, hr⟩
    · unfold Part001.validateInputVerification
      dsimp only
      rw [hnone]
      simp
    · unfold Part001.validateInputVerification
      dsimp only
      rw [hn]
      dsimp only
      have hcond : (decide (n < 1) || decide (n > 10)) = true := by
        rcases hr with h1 | h1 <;> simp [h1]
      rw [if_pos hcond]
      simp

lemma postPredictions_gate {env : Part001.JsEnv} {b : Part000.PredPostBody}
    (h : (Part001.validateInputPrediction env b.toPredictionBody).sanitized = none) :
    (Part000.postPredictions env b).statusCode = 400 ∧
      (Part000.postPredictions env b).insertedRow = none := by
  unfold Part000.postPredictions
  split
  · exact ⟨rfl, rfl⟩
  · split
    · exact ⟨rfl, rfl⟩
    · dsimp only
      rw [h]
      exact ⟨rfl, rfl⟩

lemma postVerify_gate {env : Part001.JsEnv} {idn : Option Int}
    {b : Part000.VerifyPostBody}
    (h : (Part001.validateInputVerification env b.toVerificationBody).sanitized = none) :
    (Part000.postVerify env idn b).statusCode = 400 ∧
      (Part000.postVerify env idn b).insertedRow = none := by
  unfold Part000.postVerify
  rcases idn with _ | n
  · exact ⟨rfl, rfl⟩
  · dsimp only
    split
    · exact ⟨rfl, rfl⟩
    · split
      · exact ⟨rfl, rfl⟩
      · split
        · exact ⟨rfl, rfl⟩
        · rw [h]
          exact ⟨rfl, rfl⟩

/-- C5: a supplied `confidence_level` / `confidence_score` outside 1..10
(0, 11, or a non-numeric value whose `parseInt` is NaN, modelled as `none`)
makes `validateInput` report the range violation and fail, upon which the
part_000 POST handlers answer 400 without inserting; the boundary values 1
and 10 never produce the range message. -/
theorem c5_confidence_range_enforced
    (env : Part001.JsEnv) (d : Part001.PredictionBody)
    (dv : Part001.VerificationBody) :
    ((d.confidence_level = none ∨
        ∃ n, d.confidence_level = some n ∧ (n < 1 ∨ 10 < n)) →
      "Confidence level must be between 1 and 10" ∈
          (Part001.validateInputPrediction env d).errors ∧
        (Part001.validateInputPrediction env d).isValid = false) ∧
    ((d.confidence_level = some 1 ∨ d.confidence_level = some 10) →
      "Confidence level must be between 1 and 10" ∉
        (Part001.validateInputPrediction env d).errors) ∧
    ((dv.confidence_score = none ∨
        ∃ n, dv.confidence_score = some n ∧ (n < 1 ∨ 10 < n)) →
      "Confidence score must be between 1 and 10" ∈
          (Part001.validateInputVerification env dv).errors ∧
        (Part001.validateInputVerification env dv).isValid = false) ∧
    ((dv.confidence_score = some 1 ∨ dv.confidence_score = some 10) →
      "Confidence score must be between 1 and 10" ∉
        (Part001.validateInputVerification env dv).errors) ∧
    (∀ b : Part000.PredPostBody,
      (b.toPredictionBody.confidence_level = none ∨
        ∃ n, b.toPredictionBody.confidence_level = some n ∧ (n < 1 ∨ 10 < n)) →
      (Part000.postPredictions env b).statusCode = 400 ∧
        (Part000.postPredictions env b).insertedRow = none) ∧
    (∀ (idn : Option Int) (vb : Part000.VerifyPostBody),
      (vb.toVerificationBody.confidence_score = none ∨
        ∃ n, vb.toVerificationBody.confidence_score = some n ∧ (n < 1 ∨ 10 < n)) →
      (Part000.postVerify env idn vb).statusCode = 400 ∧
        (Part000.postVerify env idn vb).insertedRow = none) := by
  refine ⟨?_, ?_, ?_, ?_, ?_, ?_⟩
  · intro hbad
    have hm := (vip_conf_mem_iff env d).mpr hbad
    exact ⟨hm, vip_invalid_of_mem hm⟩
  · intro hb hm
    have hc := (vip_conf_mem_iff env d).mp hm
    rcases hb with hb | hb <;>
      rw [hb] at hc <;>
      rcases hc with h1 | ⟨n, h2, h3⟩ <;>
      first
        | exact absurd h1 (by decide)
        | (simp only [Option.some.injEq] at h2
           rcases h3 with h3 | h3 <;> omega)
  · intro hbad
    have hm := (viv_conf_mem_iff env dv).mpr hbad
    exact ⟨hm, viv_invalid_of_mem hm⟩
  · intro hb hm
    have hc := (viv_conf_mem_iff env dv).mp hm
    rcases hb with hb | hb <;>
      rw [hb] at hc <;>
      rcases hc with h1 | ⟨n, h2, h3⟩ <;>
      first
        | exact absurd h1 (by decide)
        | (simp only [Option.some.injEq] at h2
           rcases h3 with h3 | h3 <;> omega)
  · intro b hbad
    have hm := (vip_conf_mem_iff env b.toPredictionBody).mpr hbad
    exact postPredictions_gate (vip_sanitized_none (vip_invalid_of_mem hm))
  · intro idn vb hbad
    have hm := (viv_conf_mem_iff env vb.toVerificationBody).mpr hbad
    exact postVerify_gate (viv_sanitized_none (viv_invalid_of_mem hm))

/-- C5 witness: confidence 0 is reported, confidence 1 is not, and a body
with confidence 11 is answered 400 by the handler. -/
theorem c5_confidence_range_enforced_witness :
    "Confidence level must be between 1 and 10" ∈
        (Part001.validateInputPrediction testEnv
          { dOk with confidence_level := some 0 }).errors ∧
    "Confidence level must be between 1 and 10" ∉
        (Part001.validateInputPrediction testEnv
          { dOk with confidence_level := some 1 }).errors ∧
    (Part000.postPredictions testEnv
        { confidence_level := some 11, captcha_answer := some 2,
          captcha_expected := some 2 }).statusCode = 400 :=
  ⟨((c5_confidence_range_enforced testEnv { dOk with confidence_level := some 0 }
        dvOk).1 (Or.inr ⟨0, rfl, Or.inl (by decide)⟩)).1,
   (c5_confidence_range_enforced testEnv { dOk with confidence_level := some 1 }
        dvOk).2.1 (Or.inl rfl),
   ((c5_confidence_range_enforced testEnv dOk dvOk).2.2.2.2.1
      { confidence_level := some 11, captcha_answer := some 2,
        captcha_expected := some 2 }
      (Or.inr ⟨11, rfl, Or.inr (by decide)⟩)).1⟩

/-- C6: for a well-formed positive id and a body passing the field checks,
the `src/index.tsx` verify handler answers 404 when the prediction id is
absent, 400 (`Prediction already verified`) when a verification row already
exists, and performs the INSERT exactly when the prediction exists and has
no verification; moreover any INSERT it performs implies the prediction
existed and was unverified. -/
theorem c6_verify_existence_and_duplicate_checks
    (db : SrcIndex.Db) (n : Int) (b : SrcIndex.VerifyBody)
    (hn : 0 < n) (hb : SrcIndex.bodyOk b = true) :
    (db.predictionIds.contains n = false →
      SrcIndex.postVerify db (some n) b = SrcIndex.VerifyResult.notFound ∧
      (SrcIndex.postVerify db (some n) b).status = 404) ∧
    (db.predictionIds.contains n = true →
      db.verificationPredIds.contains n = true →
      SrcIndex.postVerify db (some n) b =
        SrcIndex.VerifyResult.badRequest "Prediction already verified" ∧
      (SrcIndex.postVerify db (some n) b).status = 400) ∧
    (db.predictionIds.contains n = true →
      db.verificationPredIds.contains n = false →
      SrcIndex.postVerify db (some n) b =
        SrcIndex.VerifyResult.inserted n (b.outcome.getD "")) ∧
    (∀ (db2 : SrcIndex.Db) (idn : Option Int) (b2 : SrcIndex.VerifyBody)
        (pid : Int) (oc : String),
      SrcIndex.postVerify db2 idn b2 = SrcIndex.VerifyResult.inserted pid oc →
      db2.predictionIds.contains pid = true ∧
        db2.verificationPredIds.contains pid = false) := by
  simp only [SrcIndex.bodyOk, Bool.and_eq_true] at hb
  obtain ⟨⟨⟨⟨h1, h2⟩, h3⟩, h4⟩, h5⟩ := hb
  have h5f : (SrcIndex.jsTruthyNum b.confidence_score &&
      (decide ((b.confidence_score.getD 0) < 1) ||
       decide ((b.confidence_score.getD 0) > 10))) = false := by
    cases hx : (SrcIndex.jsTruthyNum b.confidence_score &&
        (decide ((b.confidence_score.getD 0) < 1) ||
         decide ((b.confidence_score.getD 0) > 10)))
    · rfl
    · rw [hx] at h5
      exact absurd h5 (by decide)
  have hcore : SrcIndex.postVerify db (some n) b =
      (if (!(db.predictionIds.contains n)) = true then SrcIndex.VerifyResult.notFound
       else if db.verificationPredIds.contains n = true then
         SrcIndex.VerifyResult.badRequest "Prediction already verified"
       else SrcIndex.VerifyResult.inserted n (b.outcome.getD "")) := by
    unfold SrcIndex.postVerify
    dsimp only
    rw [if_neg (by omega : ¬ n ≤ 0)]
    rw [h1, h2, h3]
    rw [if_neg (by decide)]
    rw [h4]
    rw [if_neg (by decide)]
    rw [h5f]
    rw [if_neg (by decide)]
  refine ⟨?_, ?_, ?_, ?_⟩
  · intro hnp
    have he : SrcIndex.postVerify db (some n) b = SrcIndex.VerifyResult.notFound := by
      rw [hcore, hnp]
      rw [if_pos (by decide)]
    exact ⟨he, by rw [he]; rfl⟩
  · intro hp hv
    have he : SrcIndex.postVerify db (some n) b =
        SrcIndex.VerifyResult.badRequest "Prediction already verified" := by
      rw [hcore, hp, hv]
      rw [if_neg (by decide), if_pos rfl]
    exact ⟨he, by rw [he]; rfl⟩
  · intro hp hv
    rw [hcore, hp, hv]
    rw [if_neg (by decide), if_neg (by decide)]
  · intro db2 idn b2 pid oc heq
    unfold SrcIndex.postVerify at heq
    rcases idn with _ | m
    · exact absurd heq (by simp)
    · dsimp only at heq
      split at heq
      · exact absurd heq (by simp)
      · split at heq
        · exact absurd heq (by simp)
        · split at heq
          · exact absurd heq (by simp)
          · split at heq
            · exact absurd heq (by simp)
            · split at heq
              · exact absurd heq (by simp)
              · split at heq
                · exact absurd heq (by simp)
                · simp only [SrcIndex.VerifyResult.inserted.injEq] at heq
                  obtain ⟨rfl, rfl⟩ := heq
                  rename_i hc1 hc2
                  constructor
                  · simpa using hc1
                  · simpa using hc2

/-- C6 witness: verifying already-verified prediction 5 in `db0` is rejected
with `Prediction already verified`. -/
theorem c6_verify_existence_and_duplicate_checks_witness :
    SrcIndex.postVerify db0 (some 5) vOkBody =
      SrcIndex.VerifyResult.badRequest "Prediction already verified" :=
  ((c6_verify_existence_and_duplicate_checks db0 5 vOkBody (by decide)
      (by decide)).2.1 (by decide) (by decide)).1

/-- C7: `validateInput` enforces the date rules of a prediction submission:
an unparseable predicted date, a predicted date after `new Date()`, an
unparseable supplied target date, and a target date not strictly after the
predicted date each put their message into the error list; any error makes
the result invalid, and an invalid body is answered 400 by the part_000
handler without inserting. -/
theorem c7_date_validation
    (env : Part001.JsEnv) (d : Part001.PredictionBody) :
    (Part001.jsNewDate env d.predicted_date = none →
      "Invalid predicted date" ∈ (Part001.validateInputPrediction env d).errors) ∧
    (∀ t, Part001.jsNewDate env d.predicted_date = some t → env.nowTime < t →
      "Predicted date cannot be in the future" ∈
        (Part001.validateInputPrediction env d).errors) ∧
    (Part001.truthyStr d.target_date = true →
      Part001.jsNewDate env d.target_date = none →
      "Invalid target date" ∈ (Part001.validateInputPrediction env d).errors) ∧
    (∀ tt pt, Part001.truthyStr d.target_date = true →
      Part001.jsNewDate env d.target_date = some tt →
      Part001.jsNewDate env d.predicted_date = some pt →
      tt ≤ pt →
      "Target date must be after predicted date" ∈
        (Part001.validateInputPrediction env d).errors) ∧
    (∀ m, m ∈ (Part001.validateInputPrediction env d).errors →
      (Part001.validateInputPrediction env d).isValid = false) ∧
    (∀ b : Part000.PredPostBody,
      (Part001.validateInputPrediction env b.toPredictionBody).isValid = false →
      (Part000.postPredictions env b).statusCode = 400 ∧
        (Part000.postPredictions env b).insertedRow = none) := by
  refine ⟨?_, ?_, ?_, ?_, ?_, ?_⟩
  · intro h
    simp [Part001.validateInputPrediction, h]
  · intro t ht hlt
    simp [Part001.validateInputPrediction, ht, hlt]
  · intro htr hnone
    simp [Part001.validateInputPrediction, htr, hnone]
  · intro tt pt htr htt hpt hle
    simp [Part001.validateInputPrediction, htr, htt, hpt, hle]
  · exact fun m hm => vip_invalid_of_mem hm
  · exact fun b hinv => postPredictions_gate (vip_sanitized_none hinv)

/-- C7 witness: a predicted date that parses to a future timestamp is
reported. -/
theorem c7_date_validation_witness :
    "Predicted date cannot be in the future" ∈
      (Part001.validateInputPrediction testEnv
        { dOk with predicted_date := some "2120-01-01" }).errors :=
  (c7_date_validation testEnv
      { dOk with predicted_date := some "2120-01-01" }).2.1 99999
    (by decide) (by decide)

/-- C8 counterexample: a POST body with a non-empty `email_address` honeypot
field is rejected by the part_000 prediction handler with status 400 — not
the 403 the claim states — and is not persisted. -/
theorem c8_honeypot_status_counterexample :
    Part000.postPredictions testEnv hpBody =
      Part000.ApiResult.reject 400 "Invalid request" [] ∧
    (Part000.postPredictions testEnv hpBody).statusCode = 400 ∧
    ¬ (Part000.postPredictions testEnv hpBody).statusCode = 403 ∧
    (Part000.postPredictions testEnv hpBody).insertedRow = none :=
  ⟨by decide, by decide, by decide, by decide⟩

/-- C8 amended: in the part_000 handlers a non-empty honeypot field
(`website`, `email_address`, `full_name` for predictions; `website`,
`email_address`, `company` for verifications) is rejected with status 400
(`Invalid request`) and the submission is not persisted. -/
theorem c8_honeypot_rejected_with_400
    (env : Part001.JsEnv) (b : Part000.PredPostBody) (idn : Option Int)
    (vb : Part000.VerifyPostBody) :
    ((Part001.validateHoneypot b.website = false ∨
      Part001.validateHoneypot b.email_address = false ∨
      Part001.validateHoneypot b.full_name = false) →
      Part000.postPredictions env b =
        Part000.ApiResult.reject 400 "Invalid request" [] ∧
      (Part000.postPredictions env b).insertedRow = none) ∧
    ((Part001.validateHoneypot vb.website = false ∨
      Part001.validateHoneypot vb.email_address = false ∨
      Part001.validateHoneypot vb.company = false) →
      (Part000.postVerify env idn vb).statusCode = 400 ∧
      (Part000.postVerify env idn vb).insertedRow = none) := by
  constructor
  · intro h
    unfold Part000.postPredictions
    rcases h with h | h | h <;> rw [h] <;> rw [if_pos (by simp)] <;> exact ⟨rfl, rfl⟩
  · intro h
    unfold Part000.postVerify
    rcases idn with _ | n
    · exact ⟨rfl, rfl⟩
    · dsimp only
      split
      · exact ⟨rfl, rfl⟩
      · rcases h with h | h | h <;> rw [h] <;> rw [if_pos (by simp)] <;>
          exact ⟨rfl, rfl⟩

/-- C8 amended witness: a verify body with a non-empty `company` honeypot
field gets a 400. -/
theorem c8_honeypot_rejected_with_400_witness :
    (Part000.postVerify testEnv (some 3)
        ({ company := some "b" } : Part000.VerifyPostBody)).statusCode = 400 :=
  ((c8_honeypot_rejected_with_400 testEnv hpBody (some 3)
      { company := some "b" }).2 (Or.inr (Or.inr (by decide)))).1

/-- C9: the category field never produces a validation error — the error
list (and hence validity) does not depend on it — and the sanitized category
is the supplied value when it is one of the nine enum values and `general`
otherwise (including a missing category). -/
theorem c9_category_silently_defaulted
    (env : Part001.JsEnv) (d : Part001.PredictionBody) (c : Option String) :
    ((Part001.validateInputPrediction env { d with category := c }).errors =
      (Part001.validateInputPrediction env d).errors) ∧
    ((Part001.validateInputPrediction env { d with category := c }).isValid =
      (Part001.validateInputPrediction env d).isValid) ∧
    (∀ s, (Part001.validateInputPrediction env d).sanitized = some s →
      s.category =
        (match d.category with
         | some cat =>
             if Part001.validCategories.contains cat then cat else "general"
         | none => "general")) := by
  refine ⟨rfl, rfl, ?_⟩
  intro s hs
  unfold Part001.validateInputPrediction at hs
  dsimp only at hs
  have hrec := (Option.ite_none_right_eq_some.mp hs).2
  injection hrec with hrec
  subst hrec
  rfl

/-- C9 witness: an out-of-enum category is accepted and silently replaced by
`general`. -/
theorem c9_category_silently_defaulted_witness :
    ({ predictor_name := "A", prediction_text := "X", target_description := "",
       notes := "", predicted_date := some "2020-01-01", target_date := none,
       category := "general", confidence_level := 5, source_url := none } :
        Part001.SanitizedPrediction).category =
      (match ({ dOk with category := some "bogus" } :
          Part001.PredictionBody).category with
       | some cat => if Part001.validCategories.contains cat then cat else "general"
       | none => "general") :=
  (c9_category_silently_defaulted testEnv { dOk with category := some "bogus" }
      none).2.2 _ (by decide)

/-- C10: `validateCaptcha` succeeds exactly when both `parseInt` images are
numbers and equal (so it fails whenever either argument is absent or
non-numeric), and a part_000 POST body lacking either CAPTCHA field is
answered 400 before any validation or insert. -/
theorem c10_captcha_equality_gate
    (ua ea : Option Int) (env : Part001.JsEnv) (b : Part000.PredPostBody)
    (idn : Option Int) (vb : Part000.VerifyPostBody) :
    (Part001.validateCaptcha ua ea = true ↔
      ∃ u e, ua = some u ∧ ea = some e ∧ u = e) ∧
    ((b.captcha_answer = none ∨ b.captcha_expected = none) →
      (Part000.postPredictions env b).statusCode = 400 ∧
        (Part000.postPredictions env b).insertedRow = none) ∧
    ((vb.captcha_answer = none ∨ vb.captcha_expected = none) →
      (Part000.postVerify env idn vb).statusCode = 400 ∧
        (Part000.postVerify env idn vb).insertedRow = none) := by
  refine ⟨⟨?_, ?_⟩, ?_, ?_⟩
  · intro h
    cases ua with
    | none =>
        rw [captcha_none_left] at h
        exact absurd h (by decide)
    | some u =>
        cases ea with
        | none =>
            rw [captcha_none_right] at h
            exact absurd h (by decide)
        | some e =>
            have hbe : (u == e) = true := h
            exact ⟨u, e, rfl, rfl, eq_of_beq hbe⟩
  · rintro ⟨u, e, rfl, rfl, rfl⟩
    show (u == u) = true
    simp
  · intro h
    unfold Part000.postPredictions
    split
    · exact ⟨rfl, rfl⟩
    · have hc : Part001.validateCaptcha b.captcha_answer b.captcha_expected = false := by
        rcases h with h | h
        · rw [h, captcha_none_left]
        · rw [h, captcha_none_right]
      rw [hc]
      rw [if_pos (by decide)]
      exact ⟨rfl, rfl⟩
  · intro h
    unfold Part000.postVerify
    rcases idn with _ | n
    · exact ⟨rfl, rfl⟩
    · dsimp only
      split
      · exact ⟨rfl, rfl⟩
      · split
        · exact ⟨rfl, rfl⟩
        · have hc : Part001.validateCaptcha vb.captcha_answer vb.captcha_expected
              = false := by
            rcases h with h | h
            · rw [h, captcha_none_left]
            · rw [h, captcha_none_right]
          rw [hc]
          rw [if_pos (by decide)]
          exact ⟨rfl, rfl⟩

/-- C10 witness: equal numeric CAPTCHA answers pass, and a body with no
CAPTCHA fields is answered 400 and not inserted. -/
theorem c10_captcha_equality_gate_witness :
    Part001.validateCaptcha (some 4) (some 4) = true ∧
    (Part000.postPredictions testEnv noCaptchaBody).statusCode = 400 ∧
    (Part000.postPredictions testEnv noCaptchaBody).insertedRow = none :=
  ⟨(c10_captcha_equality_gate (some 4) (some 4) testEnv noCaptchaBody none
      {}).1.mpr ⟨4, 4, rfl, rfl, rfl⟩,
   ((c10_captcha_equality_gate (some 4) (some 4) testEnv noCaptchaBody none
      {}).2.1 (Or.inl rfl)).1,
   ((c10_captcha_equality_gate (some 4) (some 4) testEnv noCaptchaBody none
      {}).2.1 (Or.inl rfl)).2⟩
